import Mathlib

/-!
Shallow embedding of `src/summarizer/model/model_loader.py`.

The module resolves a configuration dictionary (disk cache, then environment
variables, then hard-coded defaults), downloads a model artifact from a remote
workspace when the local cache directory is absent, and loads the artifact.

Modelling choices:
* Python string values and `None` are `PyVal`; a configuration dictionary is an
  insertion-ordered association list `Dict` (Python dicts preserve insertion
  order, `dict.get` yields `None` on a missing key).
* The local filesystem is an association list from path strings to `FileData`.
  A stored JSON document is kept in parsed form: `FileData.obj o` stands for
  bytes that `json.load` parses to the object `o`, `FileData.jnull` for bytes
  parsing to JSON `null`, `FileData.malformed` for bytes on which `json.load`
  raises, and `FileData.dir` for a directory entry.
* The process environment is `Env : String → Option String`.
* Remote collaborators (workspace lookup, model download, model listing) and
  the artifact loader are opaque: each call is recorded as an `Event` in a
  trace, in program order.  Building `ServicePrincipalAuthentication` is a pure
  constructor call in the source (no round-trip), so it emits no event.
* `path.join a b` is modelled as `a ++ "/" ++ b`, faithful for the relative
  paths this module builds.
* Exceptions (`json.JSONDecodeError`, `KeyError`, `TypeError`,
  `IsADirectoryError`) are modelled with `Except PyErr`.
-/

namespace ModelLoader

/-- A Python value flowing through the configuration dictionary: `None` or a
string. -/
inductive PyVal where
  | none : PyVal
  | str : String → PyVal
deriving DecidableEq

/-- A Python dictionary with string keys, in insertion order. -/
abbrev Dict := List (String × PyVal)

/-- The process environment: `os.environ.get`. -/
abbrev Env := String → Option String

/-- Data stored at a filesystem path (JSON documents kept in parsed form). -/
inductive FileData where
  | obj : Dict → FileData
  | jnull : FileData
  | malformed : FileData
  | dir : FileData
deriving DecidableEq

/-- The local filesystem: an association list from paths to stored data. -/
abbrev FS := List (String × FileData)

/-- Modelled Python exceptions raised by this module. -/
inductive PyErr where
  | jsonDecodeError : PyErr
  | keyError : PyErr
  | typeError : PyErr
  | isADirectoryError : PyErr
deriving DecidableEq

/-- Raw association-list lookup on a dictionary. -/
def lookupD : Dict → String → Option PyVal
  | [], _ => Option.none
  | (k0, v0) :: rest, k => if k0 = k then Option.some v0 else lookupD rest k

/-- Python `cfg.get(k)`: `None` when the key is absent. -/
def dget (c : Dict) (k : String) : PyVal :=
  match lookupD c k with
  | Option.some v => v
  | Option.none => PyVal.none

/-- Python `cfg[k]`: raises `KeyError` when the key is absent. -/
def dgetItem (c : Dict) (k : String) : Except PyErr PyVal :=
  match lookupD c k with
  | Option.some v => Except.ok v
  | Option.none => Except.error PyErr.keyError

/-- `os.path.exists` / filesystem lookup. -/
def lookupFS : FS → String → Option FileData
  | [], _ => Option.none
  | (k0, v0) :: rest, k => if k0 = k then Option.some v0 else lookupFS rest k

/-- `os.path.exists` as a boolean. -/
def existsFS (fs : FS) (p : String) : Bool :=
  (lookupFS fs p).isSome

/-- Store data at a path, overwriting any previous entry. -/
def insertFS : FS → String → FileData → FS
  | [], k, v => [(k, v)]
  | (k0, v0) :: rest, k, v =>
      if k0 = k then (k, v) :: rest else (k0, v0) :: insertFS rest k v

/-- `os.path.join` restricted to the relative paths this module builds. -/
def pathJoin (a b : String) : String := a ++ "/" ++ b

/-- Split a character list at `'/'` separators (`acc` holds the current
component reversed). -/
def splitSlashAux : List Char → List Char → List String
  | [], acc => [String.mk acc.reverse]
  | c :: rest, acc =>
      if c = '/' then String.mk acc.reverse :: splitSlashAux rest []
      else splitSlashAux rest (c :: acc)

/-- The `'/'`-separated components of a path string. -/
def splitSlash (s : String) : List String := splitSlashAux s.data []

/-- Successive joins of `sofar` with each further component. -/
def ancestorsAux (sofar : String) : List String → List String
  | [] => []
  | x :: rest => pathJoin sofar x :: ancestorsAux (pathJoin sofar x) rest

/-- All ancestor paths of `p` (each component-wise initial segment), ending in
`p` itself: what `pathlib.Path(p).mkdir(parents=True)` creates. -/
def ancestors (p : String) : List String :=
  match splitSlash p with
  | [] => []
  | x :: rest => x :: ancestorsAux x rest

/-- `pathlib.Path(dir).mkdir(parents=True)`: create every ancestor of `dir`. -/
def mkdirParents (fs : FS) (d : String) : FS :=
  (ancestors d).foldl (fun acc a => insertFS acc a FileData.dir) fs

/-! Module-level constants (`model_loader.py`, lines 13-23). -/

def MODEL_LOADER_CONFIG_JSON : String := "model_loader_config.json"

def CACHE : String := "cache"

def default_model_name : String := "led-large-16384-arxiv"

def default_subscription : String := "091ac194-317f-4880-9f66-a9c23f42cb60"

def default_resource_group : String := "dev"

def default_ml_workspace : String := "ecb-dev"

def default_model_version : String := "None"

/-- The Python idiom `os.environ.get(key) if os.environ.get(key) else dflt`
(lines 68-73): an unset variable or the empty string (falsy) yields the
default, any other value is taken verbatim. -/
def envOrDefault (env : Env) (key dflt : String) : String :=
  match env key with
  | Option.some v => if v = "" then dflt else v
  | Option.none => dflt

/-- The dictionary literal built from environment variables in `read_config`
(lines 67-74), in source insertion order. -/
def envCfg (env : Env) : Dict :=
  [("model_name", PyVal.str (envOrDefault env "MODEL_NAME" default_model_name)),
   ("subscription", PyVal.str (envOrDefault env "SUBSCRIPTION" default_subscription)),
   ("resource_group", PyVal.str (envOrDefault env "RESOURCE_GROUP" default_resource_group)),
   ("workspace", PyVal.str (envOrDefault env "ML_WORKSPACE" default_ml_workspace)),
   ("model_version", PyVal.str (envOrDefault env "MODEL_VERSION" default_model_version))]

/-- The record `envCfg` collapses to when none of the five variables is set. -/
def default_cfg : Dict :=
  [("model_name", PyVal.str default_model_name),
   ("subscription", PyVal.str default_subscription),
   ("resource_group", PyVal.str default_resource_group),
   ("workspace", PyVal.str default_ml_workspace),
   ("model_version", PyVal.str default_model_version)]

/-- Result of `read_config`: the filesystem after the call and the returned
dictionary (or the propagated exception). -/
instance {ε α : Type} [DecidableEq ε] [DecidableEq α] : DecidableEq (Except ε α) := fun a b =>
  match a, b with
  | Except.ok x, Except.ok y =>
      if h : x = y then Decidable.isTrue (by rw [h]) else Decidable.isFalse (by simp [h])
  | Except.error x, Except.error y =>
      if h : x = y then Decidable.isTrue (by rw [h]) else Decidable.isFalse (by simp [h])
  | Except.ok _, Except.error _ => Decidable.isFalse (by simp)
  | Except.error _, Except.ok _ => Decidable.isFalse (by simp)

structure RcOut where
  fs : FS
  out : Except PyErr Dict
deriving DecidableEq

/-- `read_config(base_dir)` (lines 48-81).  Reads
`base_dir/model_loader_config.json` when it exists; when the file is absent or
parses to JSON `null` (so that `cfg is None`), builds the dictionary from
environment variables with hard-coded fallbacks, creates `base_dir` (with
parents) when absent, and writes the dictionary to the config file.  A file
whose bytes do not parse raises `json.JSONDecodeError`; a directory at the
config path makes `open` raise. -/
def read_config (env : Env) (fs : FS) (base_dir : String) : RcOut :=
  let config_file := pathJoin base_dir MODEL_LOADER_CONFIG_JSON
  let loaded : Except PyErr (Option Dict) :=
    match lookupFS fs config_file with
    | Option.none => Except.ok Option.none
    | Option.some (FileData.obj o) => Except.ok (Option.some o)
    | Option.some FileData.jnull => Except.ok Option.none
    | Option.some FileData.malformed => Except.error PyErr.jsonDecodeError
    | Option.some FileData.dir => Except.error PyErr.isADirectoryError
  match loaded with
  | Except.error e => ⟨fs, Except.error e⟩
  | Except.ok (Option.some c) => ⟨fs, Except.ok c⟩
  | Except.ok Option.none =>
      let cfg := envCfg env
      let fs1 := if existsFS fs base_dir then fs else mkdirParents fs base_dir
      let fs2 := insertFS fs1 config_file (FileData.obj cfg)
      ⟨fs2, Except.ok cfg⟩

/-- One observable call to a remote collaborator or to the artifact loader,
recorded in program order. -/
inductive Event where
  | workspaceGet : PyVal → PyVal → PyVal → Event
  | download : PyVal → PyVal → String → Bool → Event
  | listModels : Event
  | loadArtifact : String → Event
deriving DecidableEq

/-- Whether an event is a call to the remote service (workspace lookup with its
authentication round-trip, model download, or model listing). -/
def isRemote : Event → Bool
  | Event.workspaceGet _ _ _ => true
  | Event.download _ _ _ _ => true
  | Event.listModels => true
  | Event.loadArtifact _ => false

/-- Whether an event is a model download. -/
def isDownload : Event → Bool
  | Event.download _ _ _ _ => true
  | _ => false

/-- `ServicePrincipalAuthentication` credential material (lines 86-91): a pure
constructor over three environment variables, validated only when a remote
call is attempted. -/
structure ServicePrincipalAuthentication where
  tenant_id : Option String
  service_principal_id : Option String
  service_principal_password : Option String

/-- `build_service_principal()` (lines 86-91). -/
def build_service_principal (env : Env) : ServicePrincipalAuthentication :=
  ⟨env "TENANT_ID", env "CLIENT_ID", env "CLIENT_SECRET"⟩

/-- `download_model_from_workspace(workspace, model_name, target_dir,
model_version=None)` (lines 38-45): constructs the remote model handle from
`(model_name, model_version)` and downloads it into `target_dir` with
`exist_ok=True`; one `download` event. -/
def download_model_from_workspace (model_name : PyVal) (target_dir : String)
    (model_version : PyVal) : List Event :=
  [Event.download model_name model_version target_dir true]

/-- The `model_version if model_version is not None else 'None'` path segment
of line 100. -/
def versionSegment : PyVal → String
  | PyVal.none => "None"
  | PyVal.str v => v

/-- The `target_dir` of line 100:
`path.join('.', CACHE)` joined with `cfg['model_name']` and the version
segment. -/
def target_dir_of (n : String) (v : PyVal) : String :=
  pathJoin (pathJoin (pathJoin "." CACHE) n) (versionSegment v)

/-- The `downloaded_model_path` of line 102: `target_dir` joined with the
model name. -/
def downloaded_model_path_of (n : String) (v : PyVal) : String :=
  pathJoin (target_dir_of n v) n

/-- Step 2 of `fetch_model` (lines 97-98): use the supplied dictionary, or
resolve one via `read_config()` with the default base directory `CACHE`. -/
def resolvedCfg (env : Env) (fs : FS) (cfg0 : Option Dict) : FS × Except PyErr Dict :=
  match cfg0 with
  | Option.some c => (fs, Except.ok c)
  | Option.none =>
      let r := read_config env fs CACHE
      (r.fs, r.out)

/-- Result of `fetch_model`: the event trace, the filesystem after the call
(downloaded artifact bytes themselves are part of the opaque remote
collaborator), and the directory the model and tokenizer were loaded from (or
the propagated exception). -/
structure FetchOut where
  events : List Event
  fs : FS
  out : Except PyErr String
deriving DecidableEq

/-- `fetch_model(cfg=None)` (lines 94-118).  Builds credential material (a
pure constructor, no event), resolves the configuration when none is supplied,
computes the local artifact path, and on a cache miss performs a workspace
lookup followed by exactly one download (note: line 110 passes no
`model_version`, so the download handle is built with version `None`); in
either case the artifact loader is then invoked on the local path.  A missing
`model_name` key raises `KeyError` (line 100 subscripts the dictionary); a
`None` model name makes `path.join` raise `TypeError`. -/
def fetch_model (env : Env) (fs : FS) (cfg0 : Option Dict) : FetchOut :=
  let _auth := build_service_principal env
  match resolvedCfg env fs cfg0 with
  | (fs1, Except.error e) => ⟨[], fs1, Except.error e⟩
  | (fs1, Except.ok cfg) =>
      let model_version := dget cfg "model_version"
      match dgetItem cfg "model_name" with
      | Except.error e => ⟨[], fs1, Except.error e⟩
      | Except.ok PyVal.none => ⟨[], fs1, Except.error PyErr.typeError⟩
      | Except.ok (PyVal.str name) =>
          let target_dir := target_dir_of name model_version
          let downloaded_model_path := downloaded_model_path_of name model_version
          if existsFS fs1 downloaded_model_path then
            ⟨[Event.loadArtifact downloaded_model_path], fs1,
             Except.ok downloaded_model_path⟩
          else
            ⟨Event.workspaceGet (dget cfg "subscription") (dget cfg "resource_group")
                (dget cfg "workspace")
              :: download_model_from_workspace (dget cfg "model_name") target_dir PyVal.none
              ++ [Event.loadArtifact downloaded_model_path],
             fs1, Except.ok downloaded_model_path⟩

/-- Result of `load_model_names`: the event trace, the filesystem after the
call, and the formatted name list (or the propagated exception). -/
structure ListOut where
  events : List Event
  fs : FS
  out : Except PyErr (List String)
deriving DecidableEq

/-- `load_model_names()` (lines 26-35).  Resolves the configuration via
`read_config()` (with its side effects), authenticates to the workspace, lists
the registered models — `models` is the opaque remote registry answer, a list
of `(name, version)` pairs — and formats each entry as `name::version`. -/
def load_model_names (env : Env) (fs : FS) (models : List (String × String)) : ListOut :=
  let r := read_config env fs CACHE
  match r.out with
  | Except.error e => ⟨[], r.fs, Except.error e⟩
  | Except.ok cfg =>
      ⟨[Event.workspaceGet (dget cfg "subscription") (dget cfg "resource_group")
          (dget cfg "workspace"),
        Event.listModels],
       r.fs,
       Except.ok (models.map (fun m => m.1 ++ "::" ++ m.2))⟩

/-! Spec-side invariant predicate (spec section 3: "all fields present and
non-empty after resolution"). -/

/-- Key `k` is present in `c` with a non-empty string value. -/
def fieldPresentNonEmpty (c : Dict) (k : String) : Bool :=
  match lookupD c k with
  | Option.some (PyVal.str s) => if s = "" then false else true
  | _ => false

/-- All five configuration fields are present with non-empty string values. -/
def configFieldsPresentNonEmpty (c : Dict) : Bool :=
  fieldPresentNonEmpty c "model_name" && fieldPresentNonEmpty c "subscription" &&
    fieldPresentNonEmpty c "resource_group" && fieldPresentNonEmpty c "workspace" &&
    fieldPresentNonEmpty c "model_version"

/-! Concrete fixtures used by witnesses and counterexamples. -/

/-- An environment with none of the relevant variables set. -/
def env0 : Env := fun _ => Option.none

/-- An environment with only `MODEL_NAME` set, to `foo`. -/
def env1 : Env := fun k => if k = "MODEL_NAME" then Option.some "foo" else Option.none

/-- An empty filesystem. -/
def fs0 : FS := []

/-- A configuration dictionary pinning `model_version` to `2`. -/
def cfgV2 : Dict :=
  [("model_name", PyVal.str "m"), ("subscription", PyVal.str "s"),
   ("resource_group", PyVal.str "g"), ("workspace", PyVal.str "w"),
   ("model_version", PyVal.str "2")]

/-- A filesystem whose config file holds bytes parsing to JSON `null`. -/
def fsN : FS := [(pathJoin "cache" MODEL_LOADER_CONFIG_JSON, FileData.jnull)]

/-- A filesystem whose config file holds an object with a single empty field. -/
def fsE : FS :=
  [(pathJoin "cache" MODEL_LOADER_CONFIG_JSON, FileData.obj [("model_name", PyVal.str "")])]

/-- A filesystem whose config file holds bytes `json.load` rejects. -/
def fsM : FS := [(pathJoin "cache" MODEL_LOADER_CONFIG_JSON, FileData.malformed)]

/-- A filesystem already holding the artifact directory for `cfgV2`. -/
def fsHit : FS := [("./cache/m/2/m", FileData.dir)]

/-- A filesystem whose config file holds exactly the default record. -/
def fsD : FS := [(pathJoin "cache" MODEL_LOADER_CONFIG_JSON, FileData.obj default_cfg)]

/-! Helper lemmas about the filesystem model. -/

/-- Lookup after an overwrite-or-append insertion. -/
theorem lookupFS_insertFS (fs : FS) (k : String) (v : FileData) (p : String) :
    lookupFS (insertFS fs k v) p = if k = p then Option.some v else lookupFS fs p := by
  induction fs with
  | nil => simp [insertFS, lookupFS]
  | cons hd tl ih =>
      obtain ⟨k0, v0⟩ := hd
      by_cases h0 : k0 = k
      · subst h0
        by_cases hp : k0 = p
        · subst hp
          simp [insertFS, lookupFS]
        · simp [insertFS, lookupFS, hp]
      · by_cases hp : k0 = p
        · subst hp
          have hk : ¬ k = k0 := fun h => h0 h.symm
          simp [insertFS, lookupFS, h0, hk]
        · simp [insertFS, lookupFS, h0, hp, ih]

/-- Existence is preserved by insertion. -/
theorem existsFS_insertFS_of (fs : FS) (k : String) (v : FileData) (p : String)
    (h : existsFS fs p = true) : existsFS (insertFS fs k v) p = true := by
  unfold existsFS at h ⊢
  rw [lookupFS_insertFS]
  by_cases hk : k = p
  · simp [hk]
  · simp [hk, h]

/-- Existence is preserved by a fold of directory insertions. -/
theorem existsFS_foldl_insertFS_of (l : List String) (fs : FS) (p : String)
    (h : existsFS fs p = true) :
    existsFS (l.foldl (fun acc a => insertFS acc a FileData.dir) fs) p = true := by
  induction l generalizing fs with
  | nil => exact h
  | cons x xs ih => exact ih _ (existsFS_insertFS_of fs x FileData.dir p h)

/-- Every path inserted by a fold of directory insertions exists afterwards. -/
theorem existsFS_foldl_insertFS_mem (l : List String) (fs : FS) (p : String)
    (h : p ∈ l) :
    existsFS (l.foldl (fun acc a => insertFS acc a FileData.dir) fs) p = true := by
  induction l generalizing fs with
  | nil => cases h
  | cons x xs ih =>
      rcases List.mem_cons.mp h with h1 | h2
      · subst h1
        refine existsFS_foldl_insertFS_of xs _ p ?_
        unfold existsFS
        rw [lookupFS_insertFS]
        simp
      · exact ih _ h2

/-- `mkdirParents` makes every ancestor of the created directory exist. -/
theorem existsFS_mkdirParents_mem (fs : FS) (d p : String) (h : p ∈ ancestors d) :
    existsFS (mkdirParents fs d) p = true :=
  existsFS_foldl_insertFS_mem (ancestors d) fs p h

/-- A `dget` hit with a string value means the subscript `cfg[k]` succeeds. -/
theorem dgetItem_of_dget_str (c : Dict) (k n : String)
    (h : dget c k = PyVal.str n) : dgetItem c k = Except.ok (PyVal.str n) := by
  unfold dget at h
  unfold dgetItem
  cases hl : lookupD c k with
  | none => rw [hl] at h; exact absurd h (by simp)
  | some v => rw [hl] at h; simp only at h; rw [h]

/-- `envOrDefault` never yields the empty string when the default is
non-empty. -/
theorem envOrDefault_ne_empty (env : Env) (k d : String) (hd : d ≠ "") :
    envOrDefault env k d ≠ "" := by
  unfold envOrDefault
  cases env k with
  | none => exact hd
  | some v =>
      by_cases hv : v = ""
      · simp [hv, hd]
      · simp [hv]

/-! Claim theorems. -/

/-- Claim C2 (counterexample to the claim as stated): a config file whose
bytes parse to JSON `null` exists at `cache/model_loader_config.json`, yet
`read_config` does not return its parsed contents (`None`) — it rebuilds the
record from environment variables and defaults — and it does perform a
filesystem write, rewriting the config file (the source guards the rebuild
with `if cfg is None`, which also fires when the existing file parses to
`null`). -/
theorem read_config_null_file_rewrites_cex :
    existsFS fsN (pathJoin "cache" MODEL_LOADER_CONFIG_JSON) = true ∧
    ¬ ((read_config env0 fsN "cache").fs = fsN) ∧
    (read_config env0 fsN "cache").out = Except.ok default_cfg := by decide

/-- Claim C2 (amended): for every base directory in which the config file
exists and its bytes parse to a JSON object, `read_config` returns the parsed
contents of that file unmodified and performs no filesystem write: the
resulting state is exactly the input filesystem. -/
theorem read_config_existing_object_file_no_write (env : Env) (fs : FS) (base : String)
    (o : Dict)
    (h : lookupFS fs (pathJoin base MODEL_LOADER_CONFIG_JSON) = Option.some (FileData.obj o)) :
    read_config env fs base = ⟨fs, Except.ok o⟩ := by
  simp [read_config, h]

/-- Claim C2 witness: the amended theorem applied at a filesystem holding the
default record in its config file. -/
theorem read_config_existing_object_file_no_write_witness :
    lookupFS fsD (pathJoin "cache" MODEL_LOADER_CONFIG_JSON) =
      Option.some (FileData.obj default_cfg) ∧
    read_config env0 fsD "cache" = ⟨fsD, Except.ok default_cfg⟩ :=
  ⟨by decide, read_config_existing_object_file_no_write env0 fsD "cache" default_cfg (by decide)⟩

/-- Claim C4: with no config file, a base directory absent from the
filesystem, and none of the five environment variables set, `read_config`
returns the record built from the five hard-coded default strings, writes
exactly that record as JSON to `base/model_loader_config.json`, and creates
the base directory including all its parent components. -/
theorem read_config_defaults_written_on_fresh_dir (env : Env) (fs : FS) (base : String)
    (hfile : lookupFS fs (pathJoin base MODEL_LOADER_CONFIG_JSON) = Option.none)
    (hdir : existsFS fs base = false)
    (h1 : env "MODEL_NAME" = Option.none) (h2 : env "SUBSCRIPTION" = Option.none)
    (h3 : env "RESOURCE_GROUP" = Option.none) (h4 : env "ML_WORKSPACE" = Option.none)
    (h5 : env "MODEL_VERSION" = Option.none) :
    (read_config env fs base).out = Except.ok default_cfg ∧
    lookupFS (read_config env fs base).fs (pathJoin base MODEL_LOADER_CONFIG_JSON) =
      Option.some (FileData.obj default_cfg) ∧
    ∀ d ∈ ancestors base, existsFS (read_config env fs base).fs d = true := by
  have hcfg : envCfg env = default_cfg := by
    simp [envCfg, default_cfg, envOrDefault, h1, h2, h3, h4, h5]
  refine ⟨by simp [read_config, hfile, hcfg], ?_, ?_⟩
  · simp [read_config, hfile, hcfg, lookupFS_insertFS]
  · intro d hd
    have hfs : (read_config env fs base).fs =
        insertFS (mkdirParents fs base) (pathJoin base MODEL_LOADER_CONFIG_JSON)
          (FileData.obj (envCfg env)) := by
      simp [read_config, hfile, hdir]
    rw [hfs]
    exact existsFS_insertFS_of _ _ _ _ (existsFS_mkdirParents_mem fs base d hd)

/-- Claim C4 witness: the theorem applied at the empty filesystem, the empty
environment and the default base directory `cache`. -/
theorem read_config_defaults_written_on_fresh_dir_witness :
    (lookupFS fs0 (pathJoin "cache" MODEL_LOADER_CONFIG_JSON) = Option.none ∧
     existsFS fs0 "cache" = false) ∧
    (read_config env0 fs0 "cache").out = Except.ok default_cfg ∧
    lookupFS (read_config env0 fs0 "cache").fs (pathJoin "cache" MODEL_LOADER_CONFIG_JSON) =
      Option.some (FileData.obj default_cfg) ∧
    existsFS (read_config env0 fs0 "cache").fs "cache" = true := by
  have h := read_config_defaults_written_on_fresh_dir env0 fs0 "cache"
    rfl rfl rfl rfl rfl rfl rfl
  exact ⟨⟨rfl, rfl⟩, h.1, h.2.1, h.2.2 "cache" (by decide)⟩

/-- Claim C5: with no config file, `read_config` returns the record built from
the environment: each field equals `envOrDefault` of its variable, where a
variable that is set to a non-empty string is taken verbatim and a variable
that is unset or equal to the empty string yields the fixed default. -/
theorem read_config_env_substitution (env : Env) (fs : FS) (base : String)
    (h : lookupFS fs (pathJoin base MODEL_LOADER_CONFIG_JSON) = Option.none) :
    (read_config env fs base).out = Except.ok (envCfg env) ∧
    dget (envCfg env) "model_name" = PyVal.str (envOrDefault env "MODEL_NAME" default_model_name) ∧
    dget (envCfg env) "subscription" =
      PyVal.str (envOrDefault env "SUBSCRIPTION" default_subscription) ∧
    dget (envCfg env) "resource_group" =
      PyVal.str (envOrDefault env "RESOURCE_GROUP" default_resource_group) ∧
    dget (envCfg env) "workspace" = PyVal.str (envOrDefault env "ML_WORKSPACE" default_ml_workspace) ∧
    dget (envCfg env) "model_version" =
      PyVal.str (envOrDefault env "MODEL_VERSION" default_model_version) ∧
    (∀ k d v, env k = Option.some v → v ≠ "" → envOrDefault env k d = v) ∧
    (∀ k d, env k = Option.none ∨ env k = Option.some "" → envOrDefault env k d = d) := by
  refine ⟨by simp [read_config, h], rfl, rfl, rfl, rfl, rfl, ?_, ?_⟩
  · intro k d v hv hne
    simp [envOrDefault, hv, hne]
  · intro k d hv
    rcases hv with hv | hv <;> simp [envOrDefault, hv]

/-- Claim C5 witness: the theorem applied with only `MODEL_NAME=foo` set and
no config file; the resolved record has `model_name == "foo"` and every other
field at its default. -/
theorem read_config_env_substitution_witness :
    lookupFS fs0 (pathJoin "cache" MODEL_LOADER_CONFIG_JSON) = Option.none ∧
    (read_config env1 fs0 "cache").out = Except.ok (envCfg env1) ∧
    envCfg env1 =
      [("model_name", PyVal.str "foo"),
       ("subscription", PyVal.str default_subscription),
       ("resource_group", PyVal.str default_resource_group),
       ("workspace", PyVal.str default_ml_workspace),
       ("model_version", PyVal.str default_model_version)] :=
  ⟨rfl, (read_config_env_substitution env1 fs0 "cache" rfl).1, by decide⟩

/-- Claim C6: `read_config` is idempotent on a base directory with no config
file: the first call returns and persists the environment-built record, and a
second call against the resulting filesystem returns the same record and
leaves the filesystem unchanged. -/
theorem read_config_idempotent_on_fresh_dir (env : Env) (fs : FS) (base : String)
    (h : lookupFS fs (pathJoin base MODEL_LOADER_CONFIG_JSON) = Option.none) :
    (read_config env fs base).out = Except.ok (envCfg env) ∧
    read_config env (read_config env fs base).fs base =
      ⟨(read_config env fs base).fs, Except.ok (envCfg env)⟩ := by
  constructor
  · simp [read_config, h]
  · have hfs : (read_config env fs base).fs =
        insertFS (if existsFS fs base then fs else mkdirParents fs base)
          (pathJoin base MODEL_LOADER_CONFIG_JSON) (FileData.obj (envCfg env)) := by
      simp [read_config, h]
    have hlook : lookupFS (read_config env fs base).fs
        (pathJoin base MODEL_LOADER_CONFIG_JSON) =
        Option.some (FileData.obj (envCfg env)) := by
      rw [hfs, lookupFS_insertFS]
      simp
    obtain ⟨fs2, hfs2⟩ : ∃ x, (read_config env fs base).fs = x := ⟨_, rfl⟩
    rw [hfs2] at hlook
    rw [hfs2]
    simp [read_config, hlook]

/-- Claim C6 witness: the theorem applied at the empty filesystem and empty
environment. -/
theorem read_config_idempotent_on_fresh_dir_witness :
    lookupFS fs0 (pathJoin "cache" MODEL_LOADER_CONFIG_JSON) = Option.none ∧
    (read_config env0 fs0 "cache").out = Except.ok (envCfg env0) ∧
    read_config env0 (read_config env0 fs0 "cache").fs "cache" =
      ⟨(read_config env0 fs0 "cache").fs, Except.ok (envCfg env0)⟩ :=
  ⟨rfl, (read_config_idempotent_on_fresh_dir env0 fs0 "cache" rfl).1,
   (read_config_idempotent_on_fresh_dir env0 fs0 "cache" rfl).2⟩

/-- Claim C8 (counterexample to the claim as stated): a record returned by
`read_config` from an existing config file can have an empty `model_name` and
lack the other four fields entirely — the file-branch performs no validation,
so the "all five fields present and non-empty" invariant fails for
file-sourced records. -/
theorem read_config_file_record_empty_field_cex :
    (read_config env0 fsE "cache").out = Except.ok [("model_name", PyVal.str "")] ∧
    configFieldsPresentNonEmpty [("model_name", PyVal.str "")] = false := by decide

/-- Claim C8 (amended): every record `read_config` builds on the
environment-variable/defaults path (no readable config file) has all five
fields present and non-empty; records read verbatim from an existing config
file carry no such guarantee. -/
theorem read_config_env_path_fields_nonempty (env : Env) (fs : FS) (base : String)
    (h : lookupFS fs (pathJoin base MODEL_LOADER_CONFIG_JSON) = Option.none) :
    (read_config env fs base).out = Except.ok (envCfg env) ∧
    configFieldsPresentNonEmpty (envCfg env) = true := by
  refine ⟨by simp [read_config, h], ?_⟩
  have hmn := envOrDefault_ne_empty env "MODEL_NAME" default_model_name (by decide)
  have hsu := envOrDefault_ne_empty env "SUBSCRIPTION" default_subscription (by decide)
  have hrg := envOrDefault_ne_empty env "RESOURCE_GROUP" default_resource_group (by decide)
  have hws := envOrDefault_ne_empty env "ML_WORKSPACE" default_ml_workspace (by decide)
  have hmv := envOrDefault_ne_empty env "MODEL_VERSION" default_model_version (by decide)
  simp [configFieldsPresentNonEmpty, fieldPresentNonEmpty, envCfg, lookupD,
    hmn, hsu, hrg, hws, hmv]

/-- Claim C8 witness: the amended theorem applied at the empty filesystem and
empty environment. -/
theorem read_config_env_path_fields_nonempty_witness :
    lookupFS fs0 (pathJoin "cache" MODEL_LOADER_CONFIG_JSON) = Option.none ∧
    (read_config env0 fs0 "cache").out = Except.ok (envCfg env0) ∧
    configFieldsPresentNonEmpty (envCfg env0) = true :=
  ⟨rfl, (read_config_env_path_fields_nonempty env0 fs0 "cache" rfl).1,
   (read_config_env_path_fields_nonempty env0 fs0 "cache" rfl).2⟩

/-- Claim C9: when the config file exists but its bytes fail to parse as
JSON, `read_config` propagates the parse error to the caller and leaves the
filesystem exactly as it was: no repair, no fallback to environment variables
or defaults, and no rewrite of the file. -/
theorem read_config_malformed_file_raises (env : Env) (fs : FS) (base : String)
    (h : lookupFS fs (pathJoin base MODEL_LOADER_CONFIG_JSON) =
      Option.some FileData.malformed) :
    read_config env fs base = ⟨fs, Except.error PyErr.jsonDecodeError⟩ := by
  simp [read_config, h]

/-- Claim C9 witness: the theorem applied at a filesystem whose config file is
malformed. -/
theorem read_config_malformed_file_raises_witness :
    lookupFS fsM (pathJoin "cache" MODEL_LOADER_CONFIG_JSON) =
      Option.some FileData.malformed ∧
    read_config env0 fsM "cache" = ⟨fsM, Except.error PyErr.jsonDecodeError⟩ :=
  ⟨by decide, read_config_malformed_file_raises env0 fsM "cache" (by decide)⟩

/-- Claim C1 (counterexample to the claim as stated): with `model_version`
configured as `"2"` and the artifact path absent, `fetch_model` performs
exactly one download call — but that call carries model version `None`, not
the configured version: line 110 of the source passes no `model_version`
argument, so the remote model handle is built unpinned. -/
theorem fetch_model_download_ignores_configured_version_cex :
    dget cfgV2 "model_version" = PyVal.str "2" ∧
    existsFS fs0 (downloaded_model_path_of "m" (dget cfgV2 "model_version")) = false ∧
    (fetch_model env0 fs0 (Option.some cfgV2)).events.filter isDownload =
      [Event.download (PyVal.str "m") PyVal.none "./cache/m/2" true] ∧
    Event.download (PyVal.str "m") PyVal.none "./cache/m/2" true ≠
      Event.download (PyVal.str "m") (PyVal.str "2") "./cache/m/2" true := by decide

/-- Claim C1 (amended): for every configuration whose local artifact path does
not exist, `fetch_model` performs exactly one download call against the remote
workspace; that call carries the configured model name but model version
`None` (unpinned, i.e. the registry's latest) regardless of the configured
version, and targets the version-labelled directory; the model is then loaded
from the resulting directory. -/
theorem fetch_model_cache_miss_single_unpinned_download (env : Env) (fs : FS)
    (cfg0 : Option Dict) (fs1 : FS) (c : Dict) (n : String)
    (hres : resolvedCfg env fs cfg0 = (fs1, Except.ok c))
    (hn : dget c "model_name" = PyVal.str n)
    (hmiss : existsFS fs1 (downloaded_model_path_of n (dget c "model_version")) = false) :
    (fetch_model env fs cfg0).events =
      [Event.workspaceGet (dget c "subscription") (dget c "resource_group")
         (dget c "workspace"),
       Event.download (PyVal.str n) PyVal.none (target_dir_of n (dget c "model_version")) true,
       Event.loadArtifact (downloaded_model_path_of n (dget c "model_version"))] ∧
    ((fetch_model env fs cfg0).events.filter isDownload).length = 1 ∧
    (fetch_model env fs cfg0).out =
      Except.ok (downloaded_model_path_of n (dget c "model_version")) := by
  have hitem := dgetItem_of_dget_str c "model_name" n hn
  have hfetch : fetch_model env fs cfg0 =
      ⟨[Event.workspaceGet (dget c "subscription") (dget c "resource_group")
          (dget c "workspace"),
        Event.download (dget c "model_name") PyVal.none
          (target_dir_of n (dget c "model_version")) true,
        Event.loadArtifact (downloaded_model_path_of n (dget c "model_version"))],
       fs1, Except.ok (downloaded_model_path_of n (dget c "model_version"))⟩ := by
    simp [fetch_model, hres, hitem, hmiss, download_model_from_workspace]
  rw [hfetch, hn]
  refine ⟨rfl, ?_, rfl⟩
  simp [isDownload, List.filter]

/-- Claim C1 witness: the amended theorem applied at the empty filesystem with
the version-pinned configuration `cfgV2`. -/
theorem fetch_model_cache_miss_single_unpinned_download_witness :
    (resolvedCfg env0 fs0 (Option.some cfgV2) = (fs0, Except.ok cfgV2) ∧
     dget cfgV2 "model_name" = PyVal.str "m" ∧
     existsFS fs0 (downloaded_model_path_of "m" (dget cfgV2 "model_version")) = false) ∧
    (fetch_model env0 fs0 (Option.some cfgV2)).events =
      [Event.workspaceGet (dget cfgV2 "subscription") (dget cfgV2 "resource_group")
         (dget cfgV2 "workspace"),
       Event.download (PyVal.str "m") PyVal.none
         (target_dir_of "m" (dget cfgV2 "model_version")) true,
       Event.loadArtifact (downloaded_model_path_of "m" (dget cfgV2 "model_version"))] ∧
    ((fetch_model env0 fs0 (Option.some cfgV2)).events.filter isDownload).length = 1 ∧
    (fetch_model env0 fs0 (Option.some cfgV2)).out =
      Except.ok (downloaded_model_path_of "m" (dget cfgV2 "model_version")) :=
  ⟨⟨rfl, rfl, by decide⟩,
   fetch_model_cache_miss_single_unpinned_download env0 fs0 (Option.some cfgV2) fs0 cfgV2 "m"
     rfl rfl (by decide)⟩

/-- Claim C3: for every configuration whose local artifact path already
exists, `fetch_model` performs no remote operation at all — no workspace
lookup (hence no authentication round-trip; building the credential object is
a pure constructor) and zero download calls: the trace consists of the single
local artifact-loader call. -/
theorem fetch_model_cache_hit_no_remote_calls (env : Env) (fs : FS)
    (cfg0 : Option Dict) (fs1 : FS) (c : Dict) (n : String)
    (hres : resolvedCfg env fs cfg0 = (fs1, Except.ok c))
    (hn : dget c "model_name" = PyVal.str n)
    (hhit : existsFS fs1 (downloaded_model_path_of n (dget c "model_version")) = true) :
    (fetch_model env fs cfg0).events =
      [Event.loadArtifact (downloaded_model_path_of n (dget c "model_version"))] ∧
    (fetch_model env fs cfg0).events.filter isRemote = [] ∧
    (fetch_model env fs cfg0).out =
      Except.ok (downloaded_model_path_of n (dget c "model_version")) := by
  have hitem := dgetItem_of_dget_str c "model_name" n hn
  have hfetch : fetch_model env fs cfg0 =
      ⟨[Event.loadArtifact (downloaded_model_path_of n (dget c "model_version"))],
       fs1, Except.ok (downloaded_model_path_of n (dget c "model_version"))⟩ := by
    simp [fetch_model, hres, hitem, hhit]
  rw [hfetch]
  exact ⟨rfl, rfl, rfl⟩

/-- Claim C3 witness: the theorem applied at a filesystem already holding the
artifact directory for `cfgV2`. -/
theorem fetch_model_cache_hit_no_remote_calls_witness :
    (resolvedCfg env0 fsHit (Option.some cfgV2) = (fsHit, Except.ok cfgV2) ∧
     dget cfgV2 "model_name" = PyVal.str "m" ∧
     existsFS fsHit (downloaded_model_path_of "m" (dget cfgV2 "model_version")) = true) ∧
    (fetch_model env0 fsHit (Option.some cfgV2)).events =
      [Event.loadArtifact (downloaded_model_path_of "m" (dget cfgV2 "model_version"))] ∧
    (fetch_model env0 fsHit (Option.some cfgV2)).events.filter isRemote = [] ∧
    (fetch_model env0 fsHit (Option.some cfgV2)).out =
      Except.ok (downloaded_model_path_of "m" (dget cfgV2 "model_version")) :=
  ⟨⟨rfl, rfl, by decide⟩,
   fetch_model_cache_hit_no_remote_calls env0 fsHit (Option.some cfgV2) fsHit cfgV2 "m"
     rfl rfl (by decide)⟩

/-- Claim C7: the local artifact path is a pure, deterministic function of the
configured model name and model version — any two `fetch_model` calls given
the same configuration load from the same path, whatever the environment and
filesystem — and that path equals
`./cache/<model_name>/<model_version-or-None>/<model_name>` (the `./cache`
prefix is the source's spelling `path.join('.', CACHE)` of the cache
directory). -/
theorem fetch_model_artifact_path_deterministic (c : Dict) (n : String)
    (e1 e2 : Env) (f1 f2 : FS)
    (hn : dget c "model_name" = PyVal.str n) :
    (fetch_model e1 f1 (Option.some c)).out =
      Except.ok (downloaded_model_path_of n (dget c "model_version")) ∧
    (fetch_model e2 f2 (Option.some c)).out = (fetch_model e1 f1 (Option.some c)).out ∧
    downloaded_model_path_of n (dget c "model_version") =
      "./cache/" ++ (n ++ ("/" ++ (versionSegment (dget c "model_version") ++ ("/" ++ n)))) := by
  have hitem := dgetItem_of_dget_str c "model_name" n hn
  have hout : ∀ (e : Env) (f : FS), (fetch_model e f (Option.some c)).out =
      Except.ok (downloaded_model_path_of n (dget c "model_version")) := by
    intro e f
    cases hex : existsFS f (downloaded_model_path_of n (dget c "model_version")) <;>
      simp [fetch_model, resolvedCfg, hitem, hex]
  refine ⟨hout e1 f1, by rw [hout e1 f1, hout e2 f2], ?_⟩
  unfold downloaded_model_path_of target_dir_of pathJoin CACHE
  rw [show ((("." ++ "/") ++ "cache") ++ "/" : String) = "./cache/" from rfl]
  simp [String.append_assoc]

/-- Claim C7 witness: the theorem applied to `cfgV2` under two different
environments and filesystems; the computed path is
`./cache/m/2/m` in both runs. -/
theorem fetch_model_artifact_path_deterministic_witness :
    dget cfgV2 "model_name" = PyVal.str "m" ∧
    ((fetch_model env0 fs0 (Option.some cfgV2)).out =
       Except.ok (downloaded_model_path_of "m" (dget cfgV2 "model_version")) ∧
     (fetch_model env1 fsHit (Option.some cfgV2)).out =
       (fetch_model env0 fs0 (Option.some cfgV2)).out ∧
     downloaded_model_path_of "m" (dget cfgV2 "model_version") =
       "./cache/" ++ ("m" ++ ("/" ++ (versionSegment (dget cfgV2 "model_version") ++
         ("/" ++ "m"))))) ∧
    downloaded_model_path_of "m" (dget cfgV2 "model_version") = "./cache/m/2/m" :=
  ⟨rfl, fetch_model_artifact_path_deterministic cfgV2 "m" env0 env1 fs0 fsHit rfl, by decide⟩

/-- Claim C10: `load_model_names` resolves the configuration before listing:
when no config file exists, the call writes the environment-built record to
`cache/model_loader_config.json` and makes the `cache` directory exist as a
side effect, even though its remote trace is read-only — a workspace lookup
and a listing, with zero downloads. -/
theorem load_model_names_writes_config_side_effect (env : Env) (fs : FS)
    (models : List (String × String))
    (h : lookupFS fs (pathJoin CACHE MODEL_LOADER_CONFIG_JSON) = Option.none) :
    lookupFS (load_model_names env fs models).fs (pathJoin CACHE MODEL_LOADER_CONFIG_JSON) =
      Option.some (FileData.obj (envCfg env)) ∧
    existsFS (load_model_names env fs models).fs CACHE = true ∧
    (load_model_names env fs models).events =
      [Event.workspaceGet (dget (envCfg env) "subscription")
         (dget (envCfg env) "resource_group") (dget (envCfg env) "workspace"),
       Event.listModels] ∧
    (load_model_names env fs models).events.filter isDownload = [] ∧
    (load_model_names env fs models).out =
      Except.ok (models.map (fun m => m.1 ++ "::" ++ m.2)) := by
  have hrc : read_config env fs CACHE =
      ⟨insertFS (if existsFS fs CACHE then fs else mkdirParents fs CACHE)
          (pathJoin CACHE MODEL_LOADER_CONFIG_JSON) (FileData.obj (envCfg env)),
       Except.ok (envCfg env)⟩ := by
    simp [read_config, h]
  refine ⟨?_, ?_, ?_, ?_, ?_⟩
  · simp [load_model_names, hrc, lookupFS_insertFS]
  · simp only [load_model_names, hrc]
    apply existsFS_insertFS_of
    by_cases hc : existsFS fs CACHE
    · simp only [hc, if_true]
    · simp only [hc, if_false]
      exact existsFS_mkdirParents_mem fs CACHE CACHE (by decide)
  · simp [load_model_names, hrc]
  · simp [load_model_names, hrc, isDownload, List.filter]
  · simp [load_model_names, hrc]

/-- Claim C10 witness: the theorem applied at the empty filesystem and empty
environment with a two-entry registry answer. -/
theorem load_model_names_writes_config_side_effect_witness :
    lookupFS fs0 (pathJoin CACHE MODEL_LOADER_CONFIG_JSON) = Option.none ∧
    (lookupFS (load_model_names env0 fs0 [("a", "1"), ("b", "2")]).fs
        (pathJoin CACHE MODEL_LOADER_CONFIG_JSON) =
      Option.some (FileData.obj (envCfg env0)) ∧
     existsFS (load_model_names env0 fs0 [("a", "1"), ("b", "2")]).fs CACHE = true ∧
     (load_model_names env0 fs0 [("a", "1"), ("b", "2")]).events =
       [Event.workspaceGet (dget (envCfg env0) "subscription")
          (dget (envCfg env0) "resource_group") (dget (envCfg env0) "workspace"),
        Event.listModels] ∧
     (load_model_names env0 fs0 [("a", "1"), ("b", "2")]).events.filter isDownload = [] ∧
     (load_model_names env0 fs0 [("a", "1"), ("b", "2")]).out =
       Except.ok ([("a", "1"), ("b", "2")].map (fun m => m.1 ++ "::" ++ m.2))) ∧
    (load_model_names env0 fs0 [("a", "1"), ("b", "2")]).out =
      Except.ok ["a::1", "b::2"] :=
  ⟨rfl, load_model_names_writes_config_side_effect env0 fs0 [("a", "1"), ("b", "2")] rfl,
   by decide⟩

end ModelLoader
